import Mathlib

/-!
Verification of the TokenMetric backend's accounting core against its
natural-language specification.

The Python source is shallowly embedded: SQLAlchemy rows become Lean
structures, database tables become association lists keyed by integer id,
`Decimal` arithmetic (exact decimal arithmetic on unbounded mantissas)
becomes exact rational arithmetic on `ℚ`, Python's unbounded `int` becomes
`ℤ`, and every route handler becomes a pure function from an explicit
state (plus the outcome of each blockchain read it performs) to the new
state paired with an `Except` result that models the HTTP response or
raised error.
-/

namespace TokenMetric

/-! ## Unit conversion (`BlockchainClient.to_wei` / `from_wei`)

Source: `src/backend/app/blockchain.py`, lines 596-604.

```python
@staticmethod
def to_wei(amount: Decimal, decimals: int = 6) -> int:
    return int(amount * (10 ** decimals))

@staticmethod
def from_wei(amount: int, decimals: int = 6) -> Decimal:
    return Decimal(amount) / (10 ** decimals)
```

Python's `int()` applied to a `Decimal` truncates toward zero; `truncQ`
models that conversion on exact rationals.
-/

/-- Truncation toward zero, the behaviour of Python's `int(Decimal)`. -/
def truncQ (q : ℚ) : ℤ :=
  if 0 ≤ q then ⌊q⌋ else -⌊-q⌋

/-- Embedding of `BlockchainClient.to_wei`: multiply by `10 ^ decimals`
and truncate toward zero.  The Python function is total: it never raises
for any finite `Decimal` input. -/
def to_wei (amount : ℚ) (decimals : ℕ) : ℤ :=
  truncQ (amount * 10 ^ decimals)

/-- Embedding of `BlockchainClient.from_wei`: exact division by
`10 ^ decimals`. -/
def from_wei (amount : ℤ) (decimals : ℕ) : ℚ :=
  (amount : ℚ) / 10 ^ decimals

theorem truncQ_intCast (m : ℤ) : truncQ (m : ℚ) = m := by
  unfold truncQ
  by_cases h : (0 : ℚ) ≤ (m : ℚ)
  · simp [h]
  · simp only [h, if_false]
    rw [← Int.cast_neg, Int.floor_intCast, neg_neg]

theorem to_wei_of_representable (x : ℚ) (d : ℕ) (m : ℤ)
    (hm : x = (m : ℚ) / 10 ^ d) : to_wei x d = m := by
  have h10 : (10 : ℚ) ^ d ≠ 0 := by positivity
  have hx : x * 10 ^ d = (m : ℚ) := by
    rw [hm]; field_simp
  unfold to_wei
  rw [hx, truncQ_intCast]

theorem from_wei_to_wei_exact (x : ℚ) (d : ℕ)
    (h : ∃ m : ℤ, x = (m : ℚ) / 10 ^ d) :
    from_wei (to_wei x d) d = x := by
  obtain ⟨m, hm⟩ := h
  rw [to_wei_of_representable x d m hm, from_wei, hm]

/-! ## Data model (`src/backend/app/models.py`)

Rows are Lean structures; enum columns are inductive types.  Database
tables are association lists `List (ℕ × row)` keyed by primary key;
`lookupRow` models `query(...).filter(id == k).first()` (first match) and
`updateRow` models the ORM mutating that first-matching row in place.
-/

inductive TransactionType
  | deposit
  | withdraw
  | allocate
  | deallocate
  | yieldTx
deriving DecidableEq, Repr

inductive TransactionStatus
  | pending
  | processing
  | completed
  | failed
  | cancelled
deriving DecidableEq, Repr

inductive WithdrawalRequestStatus
  | queued
  | ready
  | processed
  | cancelled
deriving DecidableEq, Repr

/-- Row of the `vaults` table (the financial columns and identity used by
the routes under verification). -/
structure Vault where
  id : ℕ
  address : String
  asset_address : String
  total_deposits : ℚ
  total_allocated : ℚ
  total_yield : ℚ
  tvl : ℚ
  is_active : Bool
deriving DecidableEq, Repr

/-- Row of the `transactions` table (columns the verified routes write). -/
structure Transaction where
  tx_type : TransactionType
  status : TransactionStatus
  amount : ℚ
  from_address : String
  to_address : String
  tx_hash : Option String
deriving DecidableEq, Repr

/-- Row of the `withdrawal_requests` table. -/
structure WithdrawalRequest where
  vault_id : ℕ
  user_id : ℕ
  queue_index : ℕ
  amount : ℚ
  status : WithdrawalRequestStatus
  tx_hash : Option String
  processed_at : Option ℕ
deriving DecidableEq, Repr

/-- Row of the `protocols` table (columns used by the allocation routes). -/
structure Protocol where
  vault_id : ℕ
  allocated_amount : ℚ
  apy : ℚ
  is_active : Bool
deriving DecidableEq, Repr

/-- First row whose key equals `k`, as `query.filter(...).first()`. -/
def lookupRow {β : Type} : List (ℕ × β) → ℕ → Option β
  | [], _ => none
  | (k', b) :: t, k => if k = k' then some b else lookupRow t k

/-- Replace the first row whose key equals `k`, as the ORM mutating the
row object returned by `first()`. -/
def updateRow {β : Type} : List (ℕ × β) → ℕ → β → List (ℕ × β)
  | [], _, _ => []
  | (k', b) :: t, k, v => if k = k' then (k', v) :: t else (k', b) :: updateRow t k v

/-- Sum of `f` over the rows of a table. -/
def sumBy {β : Type} (f : β → ℚ) : List (ℕ × β) → ℚ
  | [] => 0
  | (_, b) :: t => f b + sumBy f t

theorem sumBy_updateRow {β : Type} (f : β → ℚ) (l : List (ℕ × β)) (k : ℕ)
    (p q : β) (h : lookupRow l k = some p) :
    sumBy f (updateRow l k q) = sumBy f l - f p + f q := by
  induction l with
  | nil => simp [lookupRow] at h
  | cons hd t ih =>
    obtain ⟨k', b⟩ := hd
    by_cases hk : k = k'
    · simp only [lookupRow, hk, if_pos rfl] at h
      cases h
      simp [updateRow, hk, sumBy]
      ring
    · simp only [lookupRow, hk, if_neg hk] at h
      simp only [updateRow, if_neg hk, sumBy, ih h]
      ring

theorem sumBy_append {β : Type} (f : β → ℚ) (l₁ l₂ : List (ℕ × β)) :
    sumBy f (l₁ ++ l₂) = sumBy f l₁ + sumBy f l₂ := by
  induction l₁ with
  | nil => simp [sumBy]
  | cons hd t ih =>
    obtain ⟨k, b⟩ := hd
    simp [sumBy, ih]
    ring

/-! ## Errors

The routes reject requests by raising `fastapi.HTTPException`; the
blockchain client raises its own exception hierarchy
(`src/backend/app/blockchain.py`, lines 244-261).  Both are modelled as
values.
-/

/-- HTTP-level rejection raised by a route handler. -/
inductive ApiError
  | notFound (detail : String)
  | badRequest (detail : String)
  | internalError (detail : String)
deriving DecidableEq, Repr

/-- Exception hierarchy of `blockchain.py`: `BlockchainError` (base /
configuration) and its subclass `TransactionFailedError`. -/
inductive BlockchainErr
  | blockchainError (msg : String)
  | transactionFailed (msg : String)
deriving DecidableEq, Repr

/-! ## Withdrawal processing (`process_withdrawal`)

Source: `src/backend/app/routes/vault.py`, lines 485-519.  The handler
looks the request up by id, rejects with 404 when absent, rejects with
400 `"Withdrawal is not in queued state"` when the status differs from
`QUEUED`, and otherwise sets status `PROCESSED`, stamps `processed_at`
and stores the fabricated hash `f"0x{'0' * 63}2"`.
-/

/-- Fabricated transaction hash written by `process_withdrawal`. -/
def processedTxHash : String := "0x" ++ String.mk (List.replicate 63 '0') ++ "2"

/-- Embedding of `process_withdrawal`.  The argument is the looked-up row
(`none` models a failed lookup); `now` models `datetime.utcnow()`.  The
result pairs the surviving row with the HTTP outcome. -/
def process_withdrawal (withdrawal : Option WithdrawalRequest) (now : ℕ) :
    Option WithdrawalRequest × Except ApiError String :=
  match withdrawal with
  | none => (none, .error (.notFound "Withdrawal request not found"))
  | some w =>
    if w.status ≠ .queued then
      (some w, .error (.badRequest "Withdrawal is not in queued state"))
    else
      (some { w with
                status := .processed
                processed_at := some now
                tx_hash := some processedTxHash },
       .ok processedTxHash)

/-! ## Vault route state

State visible to the handlers in `src/backend/app/routes/vault.py` for a
single vault: the vault row, its `vault_users` rows (user id paired with
the `balance` column), its withdrawal requests, its transaction records,
and the list of on-chain receipts the process has obtained through
`BlockchainClient`'s write pipeline.  No route in `vault.py` or
`protocol.py` ever calls a pipeline write function, so `receipts` is
never extended by them; the field makes "mutated without a confirming
receipt" directly observable.
-/

structure VaultState where
  vault : Vault
  vault_users : List (ℕ × ℚ)
  withdrawals : List WithdrawalRequest
  transactions : List Transaction
  receipts : List String
deriving DecidableEq, Repr

/-- Outcomes of the blockchain reads a vault-route handler performs.
`none` models the underlying call raising an exception. -/
structure ChainEnv where
  get_balance : Option ℤ
  get_token_balance : Option ℤ
  queue_head_index : ℕ
deriving DecidableEq, Repr

/-- Sum of the `balance` column over a vault's `vault_users` rows. -/
def sumBalances (l : List (ℕ × ℚ)) : ℚ := sumBy id l

/-! ## Deposit (`deposit`)

Source: `src/backend/app/routes/vault.py`, lines 260-337.  After looking
up the vault and get-or-creating the user, the handler creates a PENDING
transaction record, then — with no call to the transaction pipeline and
no receipt ("For now, simulate a successful deposit") — credits the
user's `vault_users` row (inserting it when absent), adds the amount to
`vault.total_deposits` and `vault.tvl`, marks the transaction COMPLETED
and stores the mock hash `f"0x{'0' * 64}{transaction.id}"`.
-/

/-- Mock hash written by `deposit` for transaction id `txId`. -/
def mockDepositHash (txId : ℕ) : String :=
  "0x" ++ String.mk (List.replicate 64 '0') ++ toString txId

/-- Response body of `deposit`. -/
structure DepositResponse where
  tx_hash : String
  amount : ℚ
  new_balance : ℚ
  status : TransactionStatus
deriving DecidableEq, Repr

/-- Embedding of the `deposit` handler for an existing vault and a
resolved (get-or-created) user id `uid`. -/
def deposit (st : VaultState) (uid : ℕ) (user_address : String) (amount : ℚ) :
    VaultState × DepositResponse :=
  let txId := st.transactions.length + 1
  let new_balance :=
    match lookupRow st.vault_users uid with
    | none => amount
    | some b => b + amount
  let vault_users' :=
    match lookupRow st.vault_users uid with
    | none => st.vault_users ++ [(uid, amount)]
    | some b => updateRow st.vault_users uid (b + amount)
  let tx : Transaction :=
    { tx_type := .deposit
      status := .completed
      amount := amount
      from_address := user_address
      to_address := st.vault.address
      tx_hash := some (mockDepositHash txId) }
  ({ st with
      vault := { st.vault with
                  total_deposits := st.vault.total_deposits + amount
                  tvl := st.vault.tvl + amount }
      vault_users := vault_users'
      transactions := st.transactions ++ [tx] },
   { tx_hash := mockDepositHash txId
     amount := amount
     new_balance := new_balance
     status := .completed })

/-! ## Withdrawal (`withdraw`)

Source: `src/backend/app/routes/vault.py`, lines 344-456.  The handler
rejects with 400 `"Insufficient balance"` when the `vault_users` row is
absent or its balance is below the amount.  The instant branch runs two
blockchain reads and the liquidity comparison inside one `try`: any
exception — including the `HTTPException(400)` it raises itself when
`vault_balance_wei < amount_wei` — is caught by `except Exception` and
re-raised as a 500 `"Instant withdrawal failed: ..."`.  On success it
appends a COMPLETED transaction record (whose `tx_hash` column is never
set) and decrements the user balance, `total_deposits` and `tvl`.  The
queued branch creates a `WithdrawalRequest` with
`queue_index=0  # Would be set by contract`, decrements the user balance
and `total_deposits`, and leaves `tvl` unchanged.
-/

/-- Constant hash returned (but not persisted) by the instant branch. -/
def instantWithdrawHash : String := "0x" ++ String.mk (List.replicate 63 '0') ++ "1"

/-- Response body of `withdraw`. -/
inductive WithdrawResult
  | completed (tx_hash : String) (new_balance : ℚ)
  | queued (queue_index : ℕ) (new_balance : ℚ)
deriving DecidableEq, Repr

/-- Embedding of the `withdraw` handler for an existing vault and user. -/
def withdraw (st : VaultState) (env : ChainEnv) (uid : ℕ) (user_address : String)
    (amount : ℚ) (instant : Bool) : VaultState × Except ApiError WithdrawResult :=
  match lookupRow st.vault_users uid with
  | none => (st, .error (.badRequest "Insufficient balance"))
  | some balance =>
    if balance < amount then
      (st, .error (.badRequest "Insufficient balance"))
    else
      let amount_wei := to_wei amount 6
      if instant then
        match env.get_balance, env.get_token_balance with
        | some _, some vault_balance_wei =>
          if vault_balance_wei < amount_wei then
            (st, .error (.internalError "Instant withdrawal failed"))
          else
            let tx : Transaction :=
              { tx_type := .withdraw
                status := .completed
                amount := amount
                from_address := st.vault.address
                to_address := user_address
                tx_hash := none }
            ({ st with
                vault := { st.vault with
                            total_deposits := st.vault.total_deposits - amount
                            tvl := st.vault.tvl - amount }
                vault_users := updateRow st.vault_users uid (balance - amount)
                transactions := st.transactions ++ [tx] },
             .ok (.completed instantWithdrawHash (balance - amount)))
        | _, _ => (st, .error (.internalError "Instant withdrawal failed"))
      else
        let wd : WithdrawalRequest :=
          { vault_id := st.vault.id
            user_id := uid
            queue_index := 0
            amount := amount
            status := .queued
            tx_hash := none
            processed_at := none }
        ({ st with
            vault := { st.vault with
                        total_deposits := st.vault.total_deposits - amount }
            vault_users := updateRow st.vault_users uid (balance - amount)
            withdrawals := st.withdrawals ++ [wd] },
         .ok (.queued 0 (balance - amount)))

/-! ## Balance sync (`get_user_balance`)

Source: `src/backend/app/routes/vault.py`, lines 176-222.  The handler
tries `blockchain.get_balance`; on success it overwrites the stored
`vault_users.balance` with the chain-reported figure (no clamp against
`vault.total_deposits`) and returns it; on an exception it falls back to
the stored balance (or 0 when no row exists).
-/

/-- Embedding of the `get_user_balance` handler for an existing vault and
a resolved user id. -/
def get_user_balance (st : VaultState) (env : ChainEnv) (uid : ℕ) :
    VaultState × ℚ :=
  match env.get_balance with
  | some balance_wei =>
    let balance := from_wei balance_wei 6
    match lookupRow st.vault_users uid with
    | some _ =>
      ({ st with vault_users := updateRow st.vault_users uid balance }, balance)
    | none => (st, balance)
  | none =>
    (st, (lookupRow st.vault_users uid).getD 0)

/-! ## Protocol allocation routes (`src/backend/app/routes/protocol.py`)

State for one vault: the vault row plus its `protocols` table and the
vault's transaction records (allocate/deallocate each insert a record
already marked COMPLETED, with no pipeline call, so its `tx_hash` column
stays `None`).
-/

structure ProtocolState where
  vault : Vault
  protocols : List (ℕ × Protocol)
  transactions : List Transaction
  receipts : List String
deriving DecidableEq, Repr

/-- Sum of `allocated_amount` over a vault's active protocols. -/
def sumActiveAllocated (l : List (ℕ × Protocol)) : ℚ :=
  sumBy (fun p => if p.is_active then p.allocated_amount else 0) l

/-- Embedding of `allocate_to_protocol` (lines 138-198): 404 when the
protocol is absent, 400 when it is inactive, 400 when
`total_deposits - total_allocated < amount`; otherwise it inserts a
COMPLETED transaction and adds `amount` to both `protocol.allocated_amount`
and `vault.total_allocated` in one commit.  (FastAPI's `Query(..., gt=0)`
rejects non-positive amounts before the handler runs.) -/
def allocate_to_protocol (st : ProtocolState) (pid : ℕ) (amount : ℚ) :
    ProtocolState × Except ApiError ℚ :=
  match lookupRow st.protocols pid with
  | none => (st, .error (.notFound "Protocol not found"))
  | some p =>
    if ¬ p.is_active then
      (st, .error (.badRequest "Protocol is not active"))
    else
      let vault_balance := st.vault.total_deposits - st.vault.total_allocated
      if vault_balance < amount then
        (st, .error (.badRequest "Insufficient vault liquidity"))
      else
        let tx : Transaction :=
          { tx_type := .allocate
            status := .completed
            amount := amount
            from_address := st.vault.address
            to_address := ""
            tx_hash := none }
        ({ st with
            vault := { st.vault with
                        total_allocated := st.vault.total_allocated + amount }
            protocols := updateRow st.protocols pid
              { p with allocated_amount := p.allocated_amount + amount }
            transactions := st.transactions ++ [tx] },
         .ok (p.allocated_amount + amount))

/-- Embedding of `deallocate_from_protocol` (lines 201-248): 404 when the
protocol is absent, 400 when `protocol.allocated_amount < amount`;
otherwise it inserts a COMPLETED transaction and subtracts `amount` from
both `protocol.allocated_amount` and `vault.total_allocated`.  The
handler never checks `is_active`. -/
def deallocate_from_protocol (st : ProtocolState) (pid : ℕ) (amount : ℚ) :
    ProtocolState × Except ApiError ℚ :=
  match lookupRow st.protocols pid with
  | none => (st, .error (.notFound "Protocol not found"))
  | some p =>
    if p.allocated_amount < amount then
      (st, .error (.badRequest "Insufficient protocol allocation"))
    else
      let tx : Transaction :=
        { tx_type := .deallocate
          status := .completed
          amount := amount
          from_address := ""
          to_address := st.vault.address
          tx_hash := none }
      ({ st with
          vault := { st.vault with
                      total_allocated := st.vault.total_allocated - amount }
          protocols := updateRow st.protocols pid
            { p with allocated_amount := p.allocated_amount - amount }
          transactions := st.transactions ++ [tx] },
       .ok (p.allocated_amount - amount))

/-- Embedding of `delete_protocol` (lines 117-131): soft delete, setting
`is_active := False` and touching neither `allocated_amount` nor
`vault.total_allocated`. -/
def delete_protocol (st : ProtocolState) (pid : ℕ) :
    ProtocolState × Except ApiError Unit :=
  match lookupRow st.protocols pid with
  | none => (st, .error (.notFound "Protocol not found"))
  | some p =>
    ({ st with protocols := updateRow st.protocols pid { p with is_active := false } },
     .ok ())

/-! ## Transaction pipeline (`BlockchainClient._sign_and_send_transaction`)

Source: `src/backend/app/blockchain.py`, lines 468-492.  The method
raises `BlockchainError` when no private key is configured; otherwise it
signs, broadcasts, and waits for the receipt with `timeout=120`.  When
`wait_for_transaction_receipt` raises `TimeExhausted` it raises
`TransactionFailedError("Transaction timed out")`; on a receipt it maps
it into a `TxReceipt`.  The method performs no database access, so the
ledger state threaded through the embedding is returned untouched on
every path.
-/

/-- Receipt dataclass of `blockchain.py` (lines 268-280). -/
structure TxReceipt where
  tx_hash : String
  status : Bool
  block_number : ℕ
  gas_used : ℕ
deriving DecidableEq, Repr

/-- Outcome of `wait_for_transaction_receipt` within the 120-second
bound: either `TimeExhausted` or the raw receipt fields. -/
inductive WaitResult
  | timeExhausted
  | receipt (tx_hash : String) (status_code : ℕ) (block_number : ℕ) (gas_used : ℕ)
deriving DecidableEq, Repr

/-- Embedding of `_sign_and_send_transaction`, threading the off-chain
ledger state to make "the ledger is not touched" a stated fact rather
than an omission. -/
def sign_and_send_transaction (ledger : VaultState) (private_key : Option String)
    (wait : WaitResult) : VaultState × Except BlockchainErr TxReceipt :=
  match private_key with
  | none => (ledger, .error (.blockchainError "Private key not configured"))
  | some _ =>
    match wait with
    | .timeExhausted =>
      (ledger, .error (.transactionFailed "Transaction timed out"))
    | .receipt h s bn gu =>
      (ledger, .ok { tx_hash := h, status := s = 1, block_number := bn, gas_used := gu })

/-! ## Mobile withdrawal estimate (`mobile_estimate_withdrawal`)

Source: `src/backend/app/routes/mobile.py`, lines 317-374.  The module's
only import from `..blockchain` is `get_client, wei_to_decimal`
(line 18), and the handler — unlike the vault-route handlers — declares
no `blockchain` dependency parameter.  The probe
`blockchain.get_token_balance(...)` on line 363 therefore references an
unbound name; the resulting `NameError` is swallowed by the bare
`except Exception: pass`, leaving `instant_available = False`.  The name
environment of the probe expression is embedded literally so the failed
resolution is part of the model rather than an assumption.
-/

/-- Names bound at module scope in `mobile.py` (imports, the router and
the handler definitions) together with the parameters of
`mobile_estimate_withdrawal` — the environment in which line 363
resolves its names. -/
def mobileEstimateScope : List String :=
  ["vault_address", "amount", "user_address", "instant", "db",
   "vault", "user", "vault_user", "instant_available",
   "List", "Optional", "Decimal",
   "APIRouter", "Depends", "HTTPException", "Query", "status",
   "Session", "get_db",
   "Vault", "Protocol", "User", "VaultUser",
   "MobileVaultSummary", "MobileWalletInfo", "MobileDepositFlow",
   "MobileErrorResponse",
   "get_client", "wei_to_decimal", "router",
   "mobile_list_vaults", "mobile_vault_summary", "mobile_wallet_info",
   "mobile_deposit_flow", "mobile_estimate_deposit",
   "mobile_estimate_withdrawal", "mobile_error_info", "mobile_health"]

/-- Response body of `mobile_estimate_withdrawal`. -/
structure MobileEstimate where
  instant_available : Bool
  estimated_time_hours : ℕ
  current_balance : ℚ
  withdrawal_amount : ℚ
  new_balance : ℚ
deriving DecidableEq, Repr

/-- Embedding of `mobile_estimate_withdrawal`.  `userExists` is the
outcome of the `User` lookup; the `try` block evaluates the liquidity
probe only if the name `blockchain` resolves in the handler's scope,
and any failure inside it is swallowed (`except Exception: pass`). -/
def mobile_estimate_withdrawal (st : VaultState) (env : ChainEnv)
    (userExists : Bool) (uid : ℕ) (amount : ℚ) (instant : Bool) :
    Except ApiError MobileEstimate :=
  if ¬ userExists then
    .error (.badRequest "User not found")
  else
    match lookupRow st.vault_users uid with
    | none => .error (.badRequest "Insufficient balance")
    | some balance =>
      if balance < amount then
        .error (.badRequest "Insufficient balance")
      else
        let instant_available :=
          if instant then
            if mobileEstimateScope.contains "blockchain" then
              match env.get_token_balance with
              | some vault_balance_wei => decide (to_wei amount 6 ≤ vault_balance_wei)
              | none => false
            else
              false
          else
            false
        .ok { instant_available := instant_available
              estimated_time_hours := if instant_available then 0 else 24
              current_balance := balance
              withdrawal_amount := amount
              new_balance := balance - amount }

/-! ## Concrete fixtures used by witnesses and counterexamples -/

/-- Queued withdrawal request used in concrete evaluations. -/
def wQueuedFixture : WithdrawalRequest :=
  { vault_id := 1, user_id := 1, queue_index := 0, amount := 3000,
    status := .queued, tx_hash := none, processed_at := none }

/-- The same request in `ready` state. -/
def wReadyFixture : WithdrawalRequest :=
  { wQueuedFixture with status := .ready }

/-- The same request already `processed`. -/
def wProcessedFixture : WithdrawalRequest :=
  { wQueuedFixture with status := .processed }

/-- Vault row with 10000 deposited and nothing allocated. -/
def vault0 : Vault :=
  { id := 1, address := "0xvault", asset_address := "0xusdc",
    total_deposits := 10000, total_allocated := 0, total_yield := 0,
    tvl := 10000, is_active := true }

/-- Vault state with one user holding the whole 10000 balance. -/
def st0 : VaultState :=
  { vault := vault0, vault_users := [(1, 10000)], withdrawals := [],
    transactions := [], receipts := [] }

/-- Chain environment: reads succeed, the vault's asset balance is
`10 ^ 10` minor units, and the on-chain queue would assign index 7. -/
def env7 : ChainEnv :=
  { get_balance := some 0, get_token_balance := some (10 ^ 10),
    queue_head_index := 7 }

/-! ## C1 — withdrawal state machine -/

/-- C1 counterexample.  The claim says a `queued` request is rejected and
only a `ready` one may transition to `processed`; on the code the exact
opposite holds: `process_withdrawal` on the queued fixture succeeds and
mutates it to `processed`, while on the `ready` fixture it is rejected
with 400 "Withdrawal is not in queued state". -/
theorem C1_counterexample :
    process_withdrawal (some wQueuedFixture) 5 =
      (some { wQueuedFixture with
                status := .processed
                processed_at := some 5
                tx_hash := some processedTxHash },
       .ok processedTxHash) ∧
    process_withdrawal (some wReadyFixture) 5 =
      (some wReadyFixture, .error (.badRequest "Withdrawal is not in queued state")) := by
  exact ⟨rfl, rfl⟩

/-- C1 (amended): a `WithdrawalRequest` reaches `processed` only from
`queued`.  Processing a request in any other state (`ready`, `processed`,
`cancelled`) is rejected with 400 "Withdrawal is not in queued state" and
leaves status, `processed_at` and `tx_hash` unchanged; a `queued` request
transitions to `processed` with `processed_at` and the fabricated hash
set. -/
theorem C1_processed_only_from_queued (w : WithdrawalRequest) (now : ℕ) :
    (w.status ≠ .queued →
      process_withdrawal (some w) now =
        (some w, .error (.badRequest "Withdrawal is not in queued state"))) ∧
    (w.status = .queued →
      process_withdrawal (some w) now =
        (some { w with
                  status := .processed
                  processed_at := some now
                  tx_hash := some processedTxHash },
         .ok processedTxHash)) := by
  constructor
  · intro h
    simp [process_withdrawal, h]
  · intro h
    simp [process_withdrawal, h]

/-- Witness for C1: the amended theorem applied to the `processed` fixture
(rejected, untouched) and to the `queued` fixture (transitions). -/
theorem C1_witness :
    process_withdrawal (some wProcessedFixture) 5 =
      (some wProcessedFixture,
       .error (.badRequest "Withdrawal is not in queued state")) ∧
    process_withdrawal (some wQueuedFixture) 5 =
      (some { wQueuedFixture with
                status := .processed
                processed_at := some 5
                tx_hash := some processedTxHash },
       .ok processedTxHash) :=
  ⟨(C1_processed_only_from_queued wProcessedFixture 5).1 (by decide),
   (C1_processed_only_from_queued wQueuedFixture 5).2 rfl⟩

/-! ## C2 — queued withdrawal -/

/-- C2 counterexample.  The claim says `queue_index` is taken from the
on-chain queue (never locally invented) and `total_deposits` stays
unchanged until processing.  On the code, with the chain's queue at
index 7 (`env7`), the created request still carries `queue_index = 0`
and `total_deposits` drops from 10000 to 7000 immediately. -/
theorem C2_counterexample :
    env7.queue_head_index = 7 ∧
    (withdraw st0 env7 1 "0xuser" 3000 false).2 = .ok (.queued 0 7000) ∧
    ((withdraw st0 env7 1 "0xuser" 3000 false).1.withdrawals.map
      WithdrawalRequest.queue_index) = [0] ∧
    st0.vault.total_deposits = 10000 ∧
    (withdraw st0 env7 1 "0xuser" 3000 false).1.vault.total_deposits = 7000 := by
  refine ⟨rfl, ?_, ?_, rfl, ?_⟩ <;>
    norm_num [withdraw, st0, env7, vault0, lookupRow, updateRow]

/-- C2 (amended): a queued-withdrawal request by a user with sufficient
balance creates a `WithdrawalRequest` in `queued` state whose
`queue_index` is the locally hard-coded constant 0 (the on-chain queue is
never consulted: the result is the same for every chain environment),
immediately reduces the user's balance by the amount, and immediately
reduces the vault's `total_deposits` by the amount as well (`tvl` and the
transaction table are untouched). -/
theorem C2_queued_withdrawal (st : VaultState) (env : ChainEnv) (uid : ℕ)
    (ua : String) (amount b : ℚ)
    (hb : lookupRow st.vault_users uid = some b)
    (hle : ¬ b < amount) :
    withdraw st env uid ua amount false =
      ({ st with
          vault := { st.vault with
                      total_deposits := st.vault.total_deposits - amount }
          vault_users := updateRow st.vault_users uid (b - amount)
          withdrawals := st.withdrawals ++
            [{ vault_id := st.vault.id
               user_id := uid
               queue_index := 0
               amount := amount
               status := .queued
               tx_hash := none
               processed_at := none }] },
       .ok (.queued 0 (b - amount))) := by
  simp [withdraw, hb, hle]

/-- Witness for C2: the amended theorem at the concrete fixture. -/
theorem C2_witness :
    withdraw st0 env7 1 "0xuser" 3000 false =
      ({ st0 with
          vault := { st0.vault with total_deposits := 7000 }
          vault_users := [(1, 7000)]
          withdrawals := [{ vault_id := 1, user_id := 1, queue_index := 0,
                            amount := 3000, status := .queued,
                            tx_hash := none, processed_at := none }] },
       .ok (.queued 0 7000)) := by
  have h := C2_queued_withdrawal st0 env7 1 "0xuser" 3000 10000 rfl (by norm_num)
  rw [h]
  norm_num [st0, vault0, updateRow]

/-! ## C3 — ledger mutation requires a confirming receipt -/

/-- Vault row with every aggregate at zero. -/
def emptyVault : Vault :=
  { id := 1, address := "0xvault", asset_address := "0xusdc",
    total_deposits := 0, total_allocated := 0, total_yield := 0,
    tvl := 0, is_active := true }

/-- Fresh state: no users, withdrawals, transactions or receipts. -/
def stEmpty : VaultState :=
  { vault := emptyVault, vault_users := [], withdrawals := [],
    transactions := [], receipts := [] }

/-- C3 (code bug, evaluated at the failing input): a deposit of 1000.50
(= 2001/2) into the fresh state credits the user, adds the amount to
`total_deposits`, and records the transaction as COMPLETED with the
fabricated hash — while the set of on-chain receipts obtained by the
process is as empty afterwards as before.  The ledger is mutated and the
transaction marked `completed` with no confirming receipt, contradicting
the claimed orchestration order. -/
theorem C3_deposit_mutates_without_receipt :
    stEmpty.receipts = [] ∧
    (deposit stEmpty 1 "0xuser" (2001 / 2)).1.receipts = [] ∧
    (deposit stEmpty 1 "0xuser" (2001 / 2)).1.vault.total_deposits = 2001 / 2 ∧
    (deposit stEmpty 1 "0xuser" (2001 / 2)).1.vault.tvl = 2001 / 2 ∧
    (deposit stEmpty 1 "0xuser" (2001 / 2)).1.vault_users = [(1, 2001 / 2)] ∧
    ((deposit stEmpty 1 "0xuser" (2001 / 2)).1.transactions.map
      Transaction.status) = [.completed] ∧
    (deposit stEmpty 1 "0xuser" (2001 / 2)).2.tx_hash = mockDepositHash 1 := by
  refine ⟨rfl, rfl, ?_, ?_, ?_, rfl, rfl⟩ <;>
    norm_num [deposit, stEmpty, emptyVault, lookupRow]

/-! ## C4 — instant withdrawal -/

/-- C4 (confirmed): instant withdrawal.  The spec's
`InsufficientFundsError` is the handler's 400 "Insufficient balance"
rejection (raised when the `vault_users` row is absent or its balance is
below the amount); in both rejection cases the state is untouched.  When
the chain reports an asset balance below `to_wei amount 6`, the request
is likewise rejected with no state change (the handler's own 400 is
swallowed by its `except Exception` and surfaces as a 500).  On success,
`total_deposits`, `tvl` and the user's balance each decrease by exactly
the amount and a COMPLETED transaction record is appended. -/
theorem C4_instant_withdraw (st : VaultState) (env : ChainEnv) (uid : ℕ)
    (ua : String) (amount : ℚ) :
    (lookupRow st.vault_users uid = none →
      withdraw st env uid ua amount true =
        (st, .error (.badRequest "Insufficient balance"))) ∧
    (∀ b, lookupRow st.vault_users uid = some b → b < amount →
      withdraw st env uid ua amount true =
        (st, .error (.badRequest "Insufficient balance"))) ∧
    (∀ b g v, lookupRow st.vault_users uid = some b → ¬ b < amount →
      env.get_balance = some g → env.get_token_balance = some v →
      v < to_wei amount 6 →
      withdraw st env uid ua amount true =
        (st, .error (.internalError "Instant withdrawal failed"))) ∧
    (∀ b g v, lookupRow st.vault_users uid = some b → ¬ b < amount →
      env.get_balance = some g → env.get_token_balance = some v →
      ¬ v < to_wei amount 6 →
      withdraw st env uid ua amount true =
        ({ st with
            vault := { st.vault with
                        total_deposits := st.vault.total_deposits - amount
                        tvl := st.vault.tvl - amount }
            vault_users := updateRow st.vault_users uid (b - amount)
            transactions := st.transactions ++
              [{ tx_type := .withdraw
                 status := .completed
                 amount := amount
                 from_address := st.vault.address
                 to_address := ua
                 tx_hash := none }] },
         .ok (.completed instantWithdrawHash (b - amount)))) := by
  refine ⟨?_, ?_, ?_, ?_⟩
  · intro h
    simp [withdraw, h]
  · intro b hb hlt
    simp [withdraw, hb, hlt]
  · intro b g v hb hlt hg hv hliq
    simp [withdraw, hb, hlt, hg, hv, hliq]
  · intro b g v hb hlt hg hv hliq
    simp [withdraw, hb, hlt, hg, hv, hliq]

/-- Witness for C4: at the concrete fixture (balance 10000, asset balance
`10 ^ 10` minor units) an instant withdrawal of 5000 succeeds, the new
balance is 5000, `total_deposits` and `tvl` drop to 5000, and the
recorded transaction is COMPLETED. -/
theorem C4_witness :
    withdraw st0 env7 1 "0xuser" 5000 true =
      ({ st0 with
          vault := { st0.vault with total_deposits := 5000, tvl := 5000 }
          vault_users := [(1, 5000)]
          transactions := [{ tx_type := .withdraw
                             status := .completed
                             amount := 5000
                             from_address := "0xvault"
                             to_address := "0xuser"
                             tx_hash := none }] },
       .ok (.completed instantWithdrawHash 5000)) := by
  have h := (C4_instant_withdraw st0 env7 1 "0xuser" 5000).2.2.2
    10000 0 (10 ^ 10) rfl (by norm_num) rfl rfl ?_
  · rw [h]
    norm_num [st0, vault0, updateRow]
  · rw [show to_wei 5000 6 = 5000000000 from
      to_wei_of_representable 5000 6 5000000000 (by norm_num)]
    norm_num

/-! ## C5 — allocation bound -/

/-- Vault row for the allocation fixture: 10000 deposited, 5000
allocated. -/
def protoVault : Vault :=
  { id := 1, address := "0xvault", asset_address := "0xusdc",
    total_deposits := 10000, total_allocated := 5000, total_yield := 0,
    tvl := 10000, is_active := true }

/-- Protocol state: one active protocol carrying the whole 5000
allocation, so both halves of the invariant hold. -/
def pst0 : ProtocolState :=
  { vault := protoVault,
    protocols := [(1, { vault_id := 1, allocated_amount := 5000,
                        apy := 5, is_active := true })],
    transactions := [], receipts := [] }

/-- C5 counterexample.  The claim says every operation touching a
protocol's `allocated_amount` or active flag — protocol deactivation
included — preserves `total_allocated = Σ allocated over active
protocols`.  Deactivating the fixture's only protocol (which carries a
5000 allocation) leaves `total_allocated` at 5000 while the active sum
drops to 0, so the equality is destroyed by `delete_protocol`. -/
theorem C5_counterexample :
    pst0.vault.total_allocated = sumActiveAllocated pst0.protocols ∧
    pst0.vault.total_allocated ≤ pst0.vault.total_deposits ∧
    (delete_protocol pst0 1).1.vault.total_allocated ≠
      sumActiveAllocated (delete_protocol pst0 1).1.protocols := by
  refine ⟨?_, ?_, ?_⟩ <;>
    norm_num [pst0, protoVault, delete_protocol, lookupRow, updateRow,
      sumActiveAllocated, sumBy]

/-- C5 (amended): `allocate_to_protocol` preserves both the equality
`total_allocated = Σ allocated_amount over active protocols` and the
bound `total_allocated ≤ total_deposits`; `deallocate_from_protocol`
preserves them when the protocol is active (and the route-validated
`amount > 0` holds); but protocol deactivation preserves the equality
only when the protocol's `allocated_amount` is zero — deactivating a
protocol with a nonzero allocation breaks it. -/
theorem C5_allocation_invariant (st : ProtocolState) (pid : ℕ) (amount : ℚ) :
    (∀ p, lookupRow st.protocols pid = some p → p.is_active = true →
      ¬ st.vault.total_deposits - st.vault.total_allocated < amount →
      st.vault.total_allocated = sumActiveAllocated st.protocols →
      ((allocate_to_protocol st pid amount).1.vault.total_allocated =
        sumActiveAllocated (allocate_to_protocol st pid amount).1.protocols ∧
       (allocate_to_protocol st pid amount).1.vault.total_allocated ≤
        (allocate_to_protocol st pid amount).1.vault.total_deposits)) ∧
    (∀ p, lookupRow st.protocols pid = some p → p.is_active = true →
      ¬ p.allocated_amount < amount → 0 ≤ amount →
      st.vault.total_allocated = sumActiveAllocated st.protocols →
      st.vault.total_allocated ≤ st.vault.total_deposits →
      ((deallocate_from_protocol st pid amount).1.vault.total_allocated =
        sumActiveAllocated (deallocate_from_protocol st pid amount).1.protocols ∧
       (deallocate_from_protocol st pid amount).1.vault.total_allocated ≤
        (deallocate_from_protocol st pid amount).1.vault.total_deposits)) ∧
    (∀ p, lookupRow st.protocols pid = some p → p.allocated_amount = 0 →
      st.vault.total_allocated = sumActiveAllocated st.protocols →
      st.vault.total_allocated ≤ st.vault.total_deposits →
      ((delete_protocol st pid).1.vault.total_allocated =
        sumActiveAllocated (delete_protocol st pid).1.protocols ∧
       (delete_protocol st pid).1.vault.total_allocated ≤
        (delete_protocol st pid).1.vault.total_deposits)) := by
  refine ⟨?_, ?_, ?_⟩
  · intro p hp hact hliq hinv
    unfold allocate_to_protocol
    rw [hp]
    dsimp only
    rw [if_neg (by simp [hact]), if_neg hliq]
    dsimp only
    have hamt : amount ≤ st.vault.total_deposits - st.vault.total_allocated :=
      not_lt.mp hliq
    refine ⟨?_, by linarith⟩
    simp only [sumActiveAllocated]
    rw [sumBy_updateRow _ _ _ p _ hp]
    dsimp only
    rw [hact]
    simp only [if_true]
    rw [hinv]
    simp only [sumActiveAllocated]
    ring
  · intro p hp hact hge hpos hinv hbound
    unfold deallocate_from_protocol
    rw [hp]
    dsimp only
    rw [if_neg hge]
    dsimp only
    refine ⟨?_, by linarith⟩
    simp only [sumActiveAllocated]
    rw [sumBy_updateRow _ _ _ p _ hp]
    dsimp only
    rw [hact]
    simp only [if_true]
    rw [hinv]
    simp only [sumActiveAllocated]
    ring
  · intro p hp hzero hinv hbound
    unfold delete_protocol
    rw [hp]
    dsimp only
    refine ⟨?_, hbound⟩
    simp only [sumActiveAllocated]
    rw [sumBy_updateRow _ _ _ p _ hp]
    dsimp only
    rw [hzero]
    simp only [if_false, Bool.false_eq_true, sub_zero, add_zero]
    rw [hinv]
    simp only [sumActiveAllocated]
    simp

/-- Protocol state whose only protocol is active with a zero allocation
and whose vault has nothing allocated. -/
def pstZero : ProtocolState :=
  { vault := { protoVault with total_allocated := 0 },
    protocols := [(1, { vault_id := 1, allocated_amount := 0,
                        apy := 5, is_active := true })],
    transactions := [], receipts := [] }

/-- Witness for C5: the amended theorem at the fixture — an allocation of
2000, a deallocation of 2000, and a soft delete of a zero-allocation
protocol all preserve both halves of the invariant. -/
theorem C5_witness :
    ((allocate_to_protocol pst0 1 2000).1.vault.total_allocated =
      sumActiveAllocated (allocate_to_protocol pst0 1 2000).1.protocols ∧
     (allocate_to_protocol pst0 1 2000).1.vault.total_allocated ≤
      (allocate_to_protocol pst0 1 2000).1.vault.total_deposits) ∧
    ((deallocate_from_protocol pst0 1 2000).1.vault.total_allocated =
      sumActiveAllocated (deallocate_from_protocol pst0 1 2000).1.protocols ∧
     (deallocate_from_protocol pst0 1 2000).1.vault.total_allocated ≤
      (deallocate_from_protocol pst0 1 2000).1.vault.total_deposits) ∧
    ((delete_protocol pstZero 1).1.vault.total_allocated =
      sumActiveAllocated (delete_protocol pstZero 1).1.protocols ∧
     (delete_protocol pstZero 1).1.vault.total_allocated ≤
      (delete_protocol pstZero 1).1.vault.total_deposits) :=
  ⟨(C5_allocation_invariant pst0 1 2000).1 _ rfl rfl (by norm_num [pst0, protoVault])
      (by norm_num [pst0, protoVault, sumActiveAllocated, sumBy]),
   (C5_allocation_invariant pst0 1 2000).2.1 _ rfl rfl (by norm_num) (by norm_num)
      (by norm_num [pst0, protoVault, sumActiveAllocated, sumBy])
      (by norm_num [pst0, protoVault]),
   (C5_allocation_invariant pstZero 1 0).2.2 _ rfl rfl
      (by norm_num [pstZero, protoVault, sumActiveAllocated, sumBy])
      (by norm_num [pstZero, protoVault])⟩

/-! ## C6 — conservation -/

/-- Vault row for the sync fixture: 100 deposited. -/
def syncVault : Vault :=
  { id := 1, address := "0xvault", asset_address := "0xusdc",
    total_deposits := 100, total_allocated := 0, total_yield := 0,
    tvl := 100, is_active := true }

/-- State whose single user balance (100) exactly meets the bound. -/
def stSync : VaultState :=
  { vault := syncVault, vault_users := [(1, 100)], withdrawals := [],
    transactions := [], receipts := [] }

/-- Chain environment reporting a user balance of 200000000 minor units
(= 200 major units) for the sync fixture. -/
def envBig : ChainEnv :=
  { get_balance := some 200000000, get_token_balance := none,
    queue_head_index := 0 }

/-- C6 counterexample.  The claim includes the balance-sync path among
the operations preserving `Σ balance ≤ total_deposits`.  On the fixture
the bound holds (100 ≤ 100), the chain reports 200 for the user, and
`get_user_balance` stores 200 verbatim — the sum now exceeds
`total_deposits`. -/
theorem C6_counterexample :
    sumBalances stSync.vault_users ≤ stSync.vault.total_deposits ∧
    ¬ (sumBalances (get_user_balance stSync envBig 1).1.vault_users ≤
        (get_user_balance stSync envBig 1).1.vault.total_deposits) := by
  constructor <;>
    norm_num [stSync, syncVault, envBig, get_user_balance, lookupRow,
      updateRow, sumBalances, sumBy, from_wei]

/-- C6 (amended): deposits, instant withdrawals and queued withdrawals
each preserve `Σ VaultUserBalance.balance ≤ Vault.total_deposits` (every
path, rejection paths included); the balance-sync path is excluded — it
overwrites the stored balance with the chain-reported figure with no
clamp and can violate the bound. -/
theorem C6_conservation (st : VaultState) (env : ChainEnv) (uid : ℕ)
    (ua : String) (amount : ℚ) (instant : Bool)
    (hinv : sumBalances st.vault_users ≤ st.vault.total_deposits) :
    sumBalances (deposit st uid ua amount).1.vault_users ≤
      (deposit st uid ua amount).1.vault.total_deposits ∧
    sumBalances (withdraw st env uid ua amount instant).1.vault_users ≤
      (withdraw st env uid ua amount instant).1.vault.total_deposits := by
  simp only [sumBalances] at hinv
  constructor
  · unfold deposit
    cases hl : lookupRow st.vault_users uid with
    | none =>
      dsimp only
      simp only [sumBalances, sumBy_append, sumBy, id]
      linarith
    | some b =>
      dsimp only
      have hsum := sumBy_updateRow id st.vault_users uid b (b + amount) hl
      simp only [sumBalances, hsum, id]
      linarith
  · unfold withdraw
    cases hl : lookupRow st.vault_users uid with
    | none =>
      dsimp only
      simpa [sumBalances] using hinv
    | some b =>
      dsimp only
      by_cases hlt : b < amount
      · rw [if_pos hlt]
        simpa [sumBalances] using hinv
      · rw [if_neg hlt]
        have hsum := sumBy_updateRow id st.vault_users uid b (b - amount) hl
        cases instant with
        | true =>
          rw [if_pos rfl]
          cases hg : env.get_balance with
          | none =>
            dsimp only
            simpa [sumBalances] using hinv
          | some g =>
            cases hv : env.get_token_balance with
            | none =>
              dsimp only
              simpa [sumBalances] using hinv
            | some v =>
              dsimp only
              by_cases hliq : v < to_wei amount 6
              · rw [if_pos hliq]
                simpa [sumBalances] using hinv
              · rw [if_neg hliq]
                dsimp only
                simp only [sumBalances, hsum, id]
                linarith
        | false =>
          rw [if_neg (by simp)]
          dsimp only
          simp only [sumBalances, hsum, id]
          linarith

/-- Witness for C6: the amended theorem at the concrete fixture (deposit
of 3000 and queued withdrawal of 3000 against the 10000/10000 state). -/
theorem C6_witness :
    sumBalances (deposit st0 1 "0xuser" 3000).1.vault_users ≤
      (deposit st0 1 "0xuser" 3000).1.vault.total_deposits ∧
    sumBalances (withdraw st0 env7 1 "0xuser" 3000 false).1.vault_users ≤
      (withdraw st0 env7 1 "0xuser" 3000 false).1.vault.total_deposits :=
  C6_conservation st0 env7 1 "0xuser" 3000 false
    (by norm_num [st0, vault0, sumBalances, sumBy])

/-! ## C7 — unit-conversion round trip -/

/-- C7 (confirmed): for every amount expressible with at most `d`
fractional digits — i.e. an integer multiple of `10 ^ (-d)` — the
conversion to minor units and back is the identity:
`from_wei (to_wei x d) d = x` exactly.  `Decimal` arithmetic is embedded
as exact rational arithmetic. -/
theorem C7_round_trip (x : ℚ) (d : ℕ) (h : ∃ m : ℤ, x = (m : ℚ) / 10 ^ d) :
    from_wei (to_wei x d) d = x :=
  from_wei_to_wei_exact x d h

/-- Witness for C7: 0.75 = 750000 / 10^6 round-trips exactly at 6
decimals. -/
theorem C7_witness :
    (∃ m : ℤ, (3 / 4 : ℚ) = (m : ℚ) / 10 ^ 6) ∧
    from_wei (to_wei (3 / 4 : ℚ) 6) 6 = 3 / 4 :=
  ⟨⟨750000, by norm_num⟩, C7_round_trip (3 / 4) 6 ⟨750000, by norm_num⟩⟩

/-! ## C8 — precision loss -/

/-- C8 counterexample.  The claim says a non-representable amount makes
`to_wei` fail with a `PrecisionLoss` error rather than silently return a
value.  `to_wei` (Python: `int(amount * (10 ** decimals))`) is total and
has no failure path anywhere in `blockchain.py`; at 0.0000015 — which
needs 7 fractional digits — it silently returns 1, and the round trip
comes back as 0.000001 ≠ 0.0000015: the seventh digit is truncated away
with no signal. -/
theorem C8_counterexample :
    to_wei (15 / 10 ^ 7 : ℚ) 6 = 1 ∧
    from_wei (to_wei (15 / 10 ^ 7 : ℚ) 6) 6 ≠ (15 / 10 ^ 7 : ℚ) := by
  have harg : (15 / 10 ^ 7 : ℚ) * 10 ^ 6 = 3 / 2 := by norm_num
  have hfloor : ⌊(3 / 2 : ℚ)⌋ = 1 := by
    rw [Int.floor_eq_iff]
    norm_num
  have h1 : to_wei (15 / 10 ^ 7 : ℚ) 6 = 1 := by
    unfold to_wei truncQ
    rw [harg, if_pos (by norm_num : (0 : ℚ) ≤ 3 / 2), hfloor]
  refine ⟨h1, ?_⟩
  rw [h1]
  unfold from_wei
  norm_num

/-- C8 (amended): `to_wei` never fails; it truncates toward zero, and the
round trip through minor units is the identity exactly on the amounts
representable with at most `d` fractional digits — on every other amount
it silently loses precision. -/
theorem C8_roundtrip_iff_representable (x : ℚ) (d : ℕ) :
    from_wei (to_wei x d) d = x ↔ ∃ m : ℤ, x = (m : ℚ) / 10 ^ d := by
  constructor
  · intro h
    exact ⟨to_wei x d, h.symm⟩
  · exact from_wei_to_wei_exact x d

/-! ## C9 — confirmation timeout -/

/-- C9 (confirmed): when the confirmation wait exhausts the bounded
timeout (`wait_for_transaction_receipt(..., timeout=120)` raising
`TimeExhausted`), `_sign_and_send_transaction` raises
`TransactionFailedError("Transaction timed out")`: no `TxReceipt` is
produced, and — the method performing no database access — the off-chain
ledger, its transaction records included, is returned exactly as it was,
neither updated as a success nor marked failed. -/
theorem C9_timeout_indeterminate (ledger : VaultState) (key : String) :
    sign_and_send_transaction ledger (some key) .timeExhausted =
      (ledger, .error (.transactionFailed "Transaction timed out")) := rfl

/-! ## C10 — mobile estimate liquidity probe -/

/-- C10 (confirmed): the name `blockchain` does not resolve in
`mobile_estimate_withdrawal`'s scope (it is neither a parameter nor
imported by `mobile.py`), so with `instant=true` and a sufficient balance
the probe raises `NameError`, the bare handler swallows it, and the
response always carries `instant_available = False` and
`estimated_time_hours = 24` — whatever asset balance the chain holds. -/
theorem C10_instant_never_available (st : VaultState) (env : ChainEnv)
    (uid : ℕ) (amount b : ℚ)
    (hb : lookupRow st.vault_users uid = some b)
    (hle : ¬ b < amount) :
    mobile_estimate_withdrawal st env true uid amount true =
      .ok { instant_available := false
            estimated_time_hours := 24
            current_balance := b
            withdrawal_amount := amount
            new_balance := b - amount } := by
  have hscope : ¬ ("blockchain" ∈ mobileEstimateScope) := by decide
  simp [mobile_estimate_withdrawal, hb, hle, hscope]

/-- Witness for C10: the concrete fixture has balance 10000 ≥ 1000 and
ample on-chain liquidity (`env7` reports `10 ^ 10` minor units, far more
than `to_wei 1000 6`), yet the estimate still reports
`instant_available = false` and a 24-hour wait. -/
theorem C10_witness :
    mobile_estimate_withdrawal st0 env7 true 1 1000 true =
      .ok { instant_available := false
            estimated_time_hours := 24
            current_balance := 10000
            withdrawal_amount := 1000
            new_balance := 9000 } := by
  have h := C10_instant_never_available st0 env7 1 1000 10000 rfl (by norm_num)
  rw [h]
  norm_num

end TokenMetric
